import Mathlib

/-!
# Verification of the chat-with-SQL pipeline (`app.py`)

Shallow embedding of the single-file application: a conversation pipeline
that turns a natural-language question into SQL via a language model,
filters the SQL through a keyword safety gate (`validate_query`), executes
it against a database gateway, and phrases the result via a second language
model call.  The two external collaborators (database gateway and language
model client) are modelled as an explicit environment of fallible functions,
and each pipeline run additionally returns the trace of external calls it
performed, so that claims about which collaborators were (not) invoked are
statable.
-/

/-- A chat message, as kept in the conversation history
(`HumanMessage` / `AIMessage` in the source). -/
inductive Msg where
  | human (content : String)
  | ai (content : String)
deriving DecidableEq

/-- Python `str.lower()`, modelled characterwise on the string's characters. -/
def py_lower (s : String) : String := String.mk (s.data.map Char.toLower)

/-- Python `str.strip()`: drop whitespace from both ends. -/
def py_strip (s : String) : String :=
  String.mk (((s.data.dropWhile Char.isWhitespace).reverse.dropWhile
    Char.isWhitespace).reverse)

/-- Python's substring test `needle in haystack`. -/
def substr_contains (needle haystack : String) : Bool :=
  decide (needle.data <:+: haystack.data)

/-- Python slice `l[-n:]`: the last `n` elements (the whole list when it is
shorter than `n`). -/
def takeLast {α : Type} (n : Nat) (l : List α) : List α :=
  l.drop (l.length - n)

/-- `validate_query` (app.py lines 43-50): prevents execution of UPDATE and
DELETE queries by a case-insensitive substring scan. -/
def validate_query (sql_query : String) : Bool :=
  let sql_query_lower := py_lower sql_query
  if substr_contains "update" sql_query_lower ||
      substr_contains "delete" sql_query_lower then
    false
  else
    true

/-- The fixed greeting table (app.py lines 55-60), keyed by the lowercased
user query. -/
def general_messages : List (String × String) :=
  [("hello", "Hello! How can I assist you today?"),
   ("hi", "Hi there! How can I help?"),
   ("how are you", "I\'m just a bot, but I\'m here to help!"),
   ("bye", "Goodbye! Have a great day!"),
   ("goodbye", "Take care! See you next time!"),
   ("have a good day", "You too! Let me know if you need anything.")]

/-- The fixed refusal message returned when the safety gate rejects the
synthesized SQL (app.py line 69). -/
def refusal_message : String :=
  "Update and Delete operations are not allowed. Please ask a read-only query."

/-- The values interpolated into the SQL-synthesis prompt template
(app.py lines 16-28): schema, conversation history, question. -/
structure SqlPrompt where
  schema : String
  chat_history : List Msg
  question : String
deriving DecidableEq

/-- The values interpolated into the answer-synthesis prompt template
(app.py lines 71-80): schema, history, query, question, SQL response. -/
structure AnswerPrompt where
  schema : String
  chat_history : List Msg
  query : String
  question : String
  response : String
deriving DecidableEq

/-- Error kinds that the external collaborators may raise (spec section 7).
`get_response` installs no handler, so these propagate. -/
inductive Err where
  | SchemaFetchError
  | QueryExecutionError
  | ModelUnavailableError
  | ModelTimeoutError
deriving DecidableEq

/-- One completed external call, recorded with its result. -/
inductive Event where
  | getTableInfo (result : String)
  | dbRun (sql : String) (result : String)
  | llmSql (prompt : SqlPrompt) (result : String)
  | llmAnswer (prompt : AnswerPrompt) (result : String)
deriving DecidableEq

/-- The environment of external collaborators: the database gateway
(`get_table_info` indexed by the fetch's position within the current
pipeline invocation, so that the gateway's state may differ between the
two fetches, and `run`) and the language model client (one function per
prompt template). Every operation may fail with an `Err`. -/
structure Env where
  get_table_info : Nat → Except Err String
  run : String → Except Err String
  llmSql : SqlPrompt → Except Err String
  llmAnswer : AnswerPrompt → Except Err String

/-- `get_sql_chain(db)` invoked on question and history (app.py lines
15-41, 65-66): fetch the schema, build the SQL-synthesis prompt, call the
language model, and return its raw text output. -/
def get_sql_chain (db : Env) (question : String) (chat_history : List Msg) :
    Except Err String × List Event :=
  match db.get_table_info 0 with
  | Except.error e => (Except.error e, [])
  | Except.ok schema =>
    let prompt : SqlPrompt := ⟨schema, chat_history, question⟩
    match db.llmSql prompt with
    | Except.error e => (Except.error e, [Event.getTableInfo schema])
    | Except.ok sql =>
      (Except.ok sql, [Event.getTableInfo schema, Event.llmSql prompt sql])

/-- `get_response` (app.py lines 52-102): truncate the history to the last
five messages, answer greetings from the canned table, otherwise synthesize
SQL, gate it, execute it, and synthesize the natural-language answer.
Returns the `(sql_query, response)` pair (or the first propagated error)
together with the trace of completed external calls. -/
def get_response (user_query : String) (db : Env) (chat_history : List Msg) :
    Except Err (String × String) × List Event :=
  let chat_history := takeLast 5 chat_history
  match general_messages.lookup (py_lower user_query) with
  | some reply => (Except.ok ("", reply), [])
  | none =>
    match get_sql_chain db user_query chat_history with
    | (Except.error e, t) => (Except.error e, t)
    | (Except.ok sql_query, t) =>
      if validate_query sql_query then
        match db.get_table_info 1 with
        | Except.error e => (Except.error e, t)
        | Except.ok schema2 =>
          match db.run sql_query with
          | Except.error e => (Except.error e, t ++ [Event.getTableInfo schema2])
          | Except.ok sql_response =>
            let prompt2 : AnswerPrompt :=
              ⟨schema2, chat_history, sql_query, user_query, sql_response⟩
            match db.llmAnswer prompt2 with
            | Except.error e =>
              (Except.error e,
               t ++ [Event.getTableInfo schema2, Event.dbRun sql_query sql_response])
            | Except.ok response =>
              (Except.ok (sql_query, response),
               t ++ [Event.getTableInfo schema2, Event.dbRun sql_query sql_response,
                     Event.llmAnswer prompt2 response])
      else
        (Except.ok ("", refusal_message), t)

/-- One turn of the UI shell (app.py lines 143-160): on non-blank input,
append the human message to the history, invoke the pipeline, and on a
successful pipeline result append the AI reply.  Returns the history after
the turn, the pipeline result (`none` when the input was blank and the
pipeline was never invoked), and the pipeline's call trace. -/
def ui_turn (user_query : String) (db : Env) (chat_history : List Msg) :
    List Msg × Option (Except Err (String × String)) × List Event :=
  if py_strip user_query = "" then
    (chat_history, none, [])
  else
    let chat_history := chat_history ++ [Msg.human user_query]
    match get_response user_query db chat_history with
    | (Except.ok (sql_query, response), t) =>
      (chat_history ++ [Msg.ai response], some (Except.ok (sql_query, response)), t)
    | (Except.error e, t) => (chat_history, some (Except.error e), t)

/-- The SQL texts passed to `db.run` in a trace. -/
def runCalls (t : List Event) : List String :=
  t.filterMap fun e =>
    match e with
    | Event.dbRun s _ => some s
    | _ => none

/-- The results of the schema fetches in a trace, in call order. -/
def fetchResults (t : List Event) : List String :=
  t.filterMap fun e =>
    match e with
    | Event.getTableInfo s => some s
    | _ => none

/-- The histories interpolated into SQL-synthesis prompts in a trace. -/
def sqlPromptHistories (t : List Event) : List (List Msg) :=
  t.filterMap fun e =>
    match e with
    | Event.llmSql p _ => some p.chat_history
    | _ => none

/-- The number of answer-synthesis language model calls in a trace. -/
def countLlmAnswer (t : List Event) : Nat :=
  (t.filterMap fun e =>
    match e with
    | Event.llmAnswer p r => some (p, r)
    | _ => none).length

theorem validate_query_false_iff_aux (s : String) :
    validate_query s = false ↔
      ("update".data <:+: (py_lower s).data ∨ "delete".data <:+: (py_lower s).data) := by
  unfold validate_query substr_contains
  by_cases h1 : "update".data <:+: (py_lower s).data <;>
    by_cases h2 : "delete".data <:+: (py_lower s).data <;>
    simp [h1, h2]

/-- C1: the safety gate returns `false` exactly when the lowercased input
contains `update` or `delete` as a substring (anywhere, with no parsing,
trimming, or word-boundary checks), and `true` exactly for text free of
both substrings. -/
theorem C1_validate_query_iff (s : String) :
    (validate_query s = false ↔
      ("update".data <:+: (py_lower s).data ∨ "delete".data <:+: (py_lower s).data)) ∧
    (validate_query s = true ↔
      ¬ ("update".data <:+: (py_lower s).data ∨ "delete".data <:+: (py_lower s).data)) := by
  constructor
  · exact validate_query_false_iff_aux s
  · rw [← validate_query_false_iff_aux s]
    cases hv : validate_query s <;> simp

theorem get_response_success_eq (q : String) (db : Env) (h : List Msg)
    (s1 sql s2 resp ans : String)
    (hq : general_messages.lookup (py_lower q) = none)
    (h1 : db.get_table_info 0 = Except.ok s1)
    (h2 : db.llmSql ⟨s1, takeLast 5 h, q⟩ = Except.ok sql)
    (hv : validate_query sql = true)
    (h3 : db.get_table_info 1 = Except.ok s2)
    (h4 : db.run sql = Except.ok resp)
    (h5 : db.llmAnswer ⟨s2, takeLast 5 h, sql, q, resp⟩ = Except.ok ans) :
    get_response q db h =
      (Except.ok (sql, ans),
       [Event.getTableInfo s1, Event.llmSql ⟨s1, takeLast 5 h, q⟩ sql,
        Event.getTableInfo s2, Event.dbRun sql resp,
        Event.llmAnswer ⟨s2, takeLast 5 h, sql, q, resp⟩ ans]) := by
  unfold get_response get_sql_chain
  simp [hq, h1, h2, hv, h3, h4, h5]

theorem get_response_refusal_eq (q : String) (db : Env) (h : List Msg)
    (s1 sql : String)
    (hq : general_messages.lookup (py_lower q) = none)
    (h1 : db.get_table_info 0 = Except.ok s1)
    (h2 : db.llmSql ⟨s1, takeLast 5 h, q⟩ = Except.ok sql)
    (hv : validate_query sql = false) :
    get_response q db h =
      (Except.ok ("", refusal_message),
       [Event.getTableInfo s1, Event.llmSql ⟨s1, takeLast 5 h, q⟩ sql]) := by
  unfold get_response get_sql_chain
  simp [hq, h1, h2, hv]

theorem get_response_greeting_eq (q : String) (db : Env) (h : List Msg)
    (reply : String)
    (hq : general_messages.lookup (py_lower q) = some reply) :
    get_response q db h = (Except.ok ("", reply), []) := by
  unfold get_response
  simp [hq]

theorem get_response_err_fetch1 (q : String) (db : Env) (h : List Msg) (e : Err)
    (hq : general_messages.lookup (py_lower q) = none)
    (h1 : db.get_table_info 0 = Except.error e) :
    get_response q db h = (Except.error e, []) := by
  unfold get_response get_sql_chain
  simp [hq, h1]

theorem get_response_err_llmSql (q : String) (db : Env) (h : List Msg) (e : Err)
    (s1 : String)
    (hq : general_messages.lookup (py_lower q) = none)
    (h1 : db.get_table_info 0 = Except.ok s1)
    (h2 : db.llmSql ⟨s1, takeLast 5 h, q⟩ = Except.error e) :
    get_response q db h = (Except.error e, [Event.getTableInfo s1]) := by
  unfold get_response get_sql_chain
  simp [hq, h1, h2]

theorem get_response_err_fetch2 (q : String) (db : Env) (h : List Msg) (e : Err)
    (s1 sql : String)
    (hq : general_messages.lookup (py_lower q) = none)
    (h1 : db.get_table_info 0 = Except.ok s1)
    (h2 : db.llmSql ⟨s1, takeLast 5 h, q⟩ = Except.ok sql)
    (hv : validate_query sql = true)
    (h3 : db.get_table_info 1 = Except.error e) :
    get_response q db h =
      (Except.error e,
       [Event.getTableInfo s1, Event.llmSql ⟨s1, takeLast 5 h, q⟩ sql]) := by
  unfold get_response get_sql_chain
  simp [hq, h1, h2, hv, h3]

theorem get_response_err_run (q : String) (db : Env) (h : List Msg) (e : Err)
    (s1 sql s2 : String)
    (hq : general_messages.lookup (py_lower q) = none)
    (h1 : db.get_table_info 0 = Except.ok s1)
    (h2 : db.llmSql ⟨s1, takeLast 5 h, q⟩ = Except.ok sql)
    (hv : validate_query sql = true)
    (h3 : db.get_table_info 1 = Except.ok s2)
    (h4 : db.run sql = Except.error e) :
    get_response q db h =
      (Except.error e,
       [Event.getTableInfo s1, Event.llmSql ⟨s1, takeLast 5 h, q⟩ sql,
        Event.getTableInfo s2]) := by
  unfold get_response get_sql_chain
  simp [hq, h1, h2, hv, h3, h4]

theorem get_response_err_llmAnswer (q : String) (db : Env) (h : List Msg) (e : Err)
    (s1 sql s2 resp : String)
    (hq : general_messages.lookup (py_lower q) = none)
    (h1 : db.get_table_info 0 = Except.ok s1)
    (h2 : db.llmSql ⟨s1, takeLast 5 h, q⟩ = Except.ok sql)
    (hv : validate_query sql = true)
    (h3 : db.get_table_info 1 = Except.ok s2)
    (h4 : db.run sql = Except.ok resp)
    (h5 : db.llmAnswer ⟨s2, takeLast 5 h, sql, q, resp⟩ = Except.error e) :
    get_response q db h =
      (Except.error e,
       [Event.getTableInfo s1, Event.llmSql ⟨s1, takeLast 5 h, q⟩ sql,
        Event.getTableInfo s2, Event.dbRun sql resp]) := by
  unfold get_response get_sql_chain
  simp [hq, h1, h2, hv, h3, h4, h5]



theorem trace_llmSql_inv (q : String) (db : Env) (h : List Msg)
    (p : SqlPrompt) (r : String)
    (he : Event.llmSql p r ∈ (get_response q db h).2) :
    p.chat_history = takeLast 5 h ∧ p.question = q ∧
      db.get_table_info 0 = Except.ok p.schema := by
  rcases hl : general_messages.lookup (py_lower q) with _ | reply
  · rcases h1 : db.get_table_info 0 with e1 | s1
    · rw [get_response_err_fetch1 q db h e1 hl h1] at he
      simp at he
    · rcases h2 : db.llmSql ⟨s1, takeLast 5 h, q⟩ with e2 | sql
      · rw [get_response_err_llmSql q db h e2 s1 hl h1 h2] at he
        simp at he
      · rcases hv : validate_query sql with _ | _
        · rw [get_response_refusal_eq q db h s1 sql hl h1 h2 hv] at he
          simp at he
          obtain ⟨hp, -⟩ := he
          subst hp
          exact ⟨rfl, rfl, by simp [h1]⟩
        · rcases h3 : db.get_table_info 1 with e3 | s2
          · rw [get_response_err_fetch2 q db h e3 s1 sql hl h1 h2 hv h3] at he
            simp at he
            obtain ⟨hp, -⟩ := he
            subst hp
            exact ⟨rfl, rfl, by simp [h1]⟩
          · rcases h4 : db.run sql with e4 | resp
            · rw [get_response_err_run q db h e4 s1 sql s2 hl h1 h2 hv h3 h4] at he
              simp at he
              obtain ⟨hp, -⟩ := he
              subst hp
              exact ⟨rfl, rfl, by simp [h1]⟩
            · rcases h5 : db.llmAnswer ⟨s2, takeLast 5 h, sql, q, resp⟩ with e5 | ans
              · rw [get_response_err_llmAnswer q db h e5 s1 sql s2 resp hl h1 h2 hv h3 h4 h5] at he
                simp at he
                obtain ⟨hp, -⟩ := he
                subst hp
                exact ⟨rfl, rfl, by simp [h1]⟩
              · rw [get_response_success_eq q db h s1 sql s2 resp ans hl h1 h2 hv h3 h4 h5] at he
                simp at he
                obtain ⟨hp, -⟩ := he
                subst hp
                exact ⟨rfl, rfl, by simp [h1]⟩
  · rw [get_response_greeting_eq q db h reply hl] at he
    simp at he

theorem trace_llmAnswer_inv (q : String) (db : Env) (h : List Msg)
    (p : AnswerPrompt) (r : String)
    (he : Event.llmAnswer p r ∈ (get_response q db h).2) :
    p.chat_history = takeLast 5 h ∧ p.question = q ∧
      db.get_table_info 1 = Except.ok p.schema ∧
      db.run p.query = Except.ok p.response := by
  rcases hl : general_messages.lookup (py_lower q) with _ | reply
  · rcases h1 : db.get_table_info 0 with e1 | s1
    · rw [get_response_err_fetch1 q db h e1 hl h1] at he
      simp at he
    · rcases h2 : db.llmSql ⟨s1, takeLast 5 h, q⟩ with e2 | sql
      · rw [get_response_err_llmSql q db h e2 s1 hl h1 h2] at he
        simp at he
      · rcases hv : validate_query sql with _ | _
        · rw [get_response_refusal_eq q db h s1 sql hl h1 h2 hv] at he
          simp at he
        · rcases h3 : db.get_table_info 1 with e3 | s2
          · rw [get_response_err_fetch2 q db h e3 s1 sql hl h1 h2 hv h3] at he
            simp at he
          · rcases h4 : db.run sql with e4 | resp
            · rw [get_response_err_run q db h e4 s1 sql s2 hl h1 h2 hv h3 h4] at he
              simp at he
            · rcases h5 : db.llmAnswer ⟨s2, takeLast 5 h, sql, q, resp⟩ with e5 | ans
              · rw [get_response_err_llmAnswer q db h e5 s1 sql s2 resp hl h1 h2 hv h3 h4 h5] at he
                simp at he
              · rw [get_response_success_eq q db h s1 sql s2 resp ans hl h1 h2 hv h3 h4 h5] at he
                simp at he
                obtain ⟨hp, -⟩ := he
                subst hp
                exact ⟨rfl, rfl, by simp [h3], by simp [h4]⟩
  · rw [get_response_greeting_eq q db h reply hl] at he
    simp at he

theorem takeLast_length {α : Type} (n : Nat) (l : List α) :
    (takeLast n l).length = min n l.length := by
  simp only [takeLast, List.length_drop]
  omega

theorem takeLast_suffix {α : Type} (n : Nat) (l : List α) : takeLast n l <:+ l :=
  List.drop_suffix _ _

theorem takeLast_concat_getLast {α : Type} (l : List α) (x : α) :
    (takeLast 5 (l ++ [x])).getLast? = some x := by
  have hlen : (takeLast 5 (l ++ [x])).length = min 5 (l.length + 1) := by
    simpa using takeLast_length 5 (l ++ [x])
  obtain ⟨s, hs⟩ := takeLast_suffix 5 (l ++ [x])
  have hx : (s ++ takeLast 5 (l ++ [x])).getLast? = some x := by
    rw [hs]
    exact List.getLast?_concat _
  rw [List.getLast?_append] at hx
  rcases ht : (takeLast 5 (l ++ [x])).getLast? with _ | y
  · exfalso
    have hnil : takeLast 5 (l ++ [x]) = [] := List.getLast?_eq_none_iff.mp ht
    rw [hnil] at hlen
    simp at hlen
    omega
  · rw [ht] at hx
    simp at hx
    rw [hx]

theorem takeLast_concat_mem {α : Type} (l : List α) (x : α) :
    x ∈ takeLast 5 (l ++ [x]) :=
  List.mem_of_getLast?_eq_some (takeLast_concat_getLast l x)

/-- A test environment: fixed schemas per fetch, echoing executor, and a
language model client returning the given fixed strings. -/
def constEnv (sql answer : String) : Env where
  get_table_info := fun n => Except.ok (if n == 0 then "schemaA" else "schemaB")
  run := fun s => Except.ok ("rows(" ++ s ++ ")")
  llmSql := fun _ => Except.ok sql
  llmAnswer := fun _ => Except.ok answer

/-- A test environment whose SQL-synthesis model echoes the question. -/
def echoEnv : Env where
  get_table_info := fun n => Except.ok (if n == 0 then "schemaA" else "schemaB")
  run := fun s => Except.ok ("rows(" ++ s ++ ")")
  llmSql := fun p => Except.ok p.question
  llmAnswer := fun _ => Except.ok "answer"

/-- A test environment whose query execution fails. -/
def runFailEnv : Env where
  get_table_info := fun _ => Except.ok "schemaA"
  run := fun _ => Except.error Err.QueryExecutionError
  llmSql := fun _ => Except.ok "SELECT 1"
  llmAnswer := fun _ => Except.ok "answer"


/-- C2 (amended): in every turn whose synthesized SQL text contains the
substring "update" or "delete" in any case, get_response returns exactly
the pair ("", refusal message) and performs no db.run call and no second
language model call; the question "DELETE FROM users" is refused whenever
the model's synthesized SQL (for example the echoed question) contains the
substring — the gate inspects only the synthesized SQL, not the question. -/
theorem C2_refusal_short_circuit (q : String) (db : Env) (h : List Msg)
    (s1 sql : String)
    (hq : general_messages.lookup (py_lower q) = none)
    (h1 : db.get_table_info 0 = Except.ok s1)
    (h2 : db.llmSql ⟨s1, takeLast 5 h, q⟩ = Except.ok sql)
    (hbad : "update".data <:+: (py_lower sql).data ∨
      "delete".data <:+: (py_lower sql).data) :
    (get_response q db h).1 = Except.ok ("", refusal_message) ∧
      runCalls (get_response q db h).2 = [] ∧
      countLlmAnswer (get_response q db h).2 = 0 := by
  have hv : validate_query sql = false := (validate_query_false_iff_aux sql).mpr hbad
  rw [get_response_refusal_eq q db h s1 sql hq h1 h2 hv]
  exact ⟨rfl, rfl, rfl⟩

/-- C2 witness: the question "DELETE FROM users" with an echoing model is
refused with the exact message, an empty SQL component, and no execution. -/
theorem C2_refusal_short_circuit_witness :
    (get_response "DELETE FROM users" echoEnv []).1 =
        Except.ok ("", refusal_message) ∧
      runCalls (get_response "DELETE FROM users" echoEnv []).2 = [] ∧
      countLlmAnswer (get_response "DELETE FROM users" echoEnv []).2 = 0 :=
  C2_refusal_short_circuit "DELETE FROM users" echoEnv [] "schemaA"
    "DELETE FROM users" rfl rfl rfl (Or.inr (by decide))

/-- C2 counterexample: with the question literally "DELETE FROM users" but a
model that synthesizes a harmless SELECT, no refusal occurs and the gateway
executes the query — the claim's literal-question clause fails because the
code gates only the synthesized SQL, never the user's question. -/
theorem C2_claim_cex :
    (get_response "DELETE FROM users" (constEnv "SELECT 1" "answer") []).1 ≠
        Except.ok ("", refusal_message) ∧
      runCalls (get_response "DELETE FROM users"
        (constEnv "SELECT 1" "answer") []).2 = ["SELECT 1"] := by
  constructor
  · intro hc
    rw [show (get_response "DELETE FROM users" (constEnv "SELECT 1" "answer") []).1 =
        Except.ok ("SELECT 1", "answer") from rfl] at hc
    simp [refusal_message] at hc
  · rfl

/-- C3 (amended): a question whose lowercasing exactly equals one of the six
greeting keys (the code performs no whitespace trimming) gets the
corresponding canned response paired with an empty SQL string and an empty
call trace — no language model or gateway call happens. -/
theorem C3_greeting_short_circuit (q : String) (db : Env) (h : List Msg)
    (reply : String)
    (hq : general_messages.lookup (py_lower q) = some reply) :
    get_response q db h = (Except.ok ("", reply), []) :=
  get_response_greeting_eq q db h reply hq

/-- C3 witness: the question "hello" yields exactly the canned pair with no
external calls. -/
theorem C3_greeting_short_circuit_witness :
    get_response "hello" (constEnv "SELECT 1" "answer") [] =
      (Except.ok ("", "Hello! How can I assist you today?"), []) :=
  C3_greeting_short_circuit "hello" (constEnv "SELECT 1" "answer") []
    "Hello! How can I assist you today?" rfl

/-- C3 counterexample: " hello " equals the greeting "hello" after trimming
surrounding whitespace and lowercasing, yet the pipeline does not return the
canned greeting — it synthesizes and executes SQL (five external calls),
because the code matches the lowercased question without any trimming. -/
theorem C3_claim_cex :
    py_lower (py_strip " hello ") = "hello" ∧
      (get_response " hello " (constEnv "SELECT 1" "answer") []).1 =
        Except.ok ("SELECT 1", "answer") ∧
      (get_response " hello " (constEnv "SELECT 1" "answer") []).2.length = 5 :=
  ⟨rfl, rfl, rfl⟩

/-- C4: the history interpolated into both prompt constructions is exactly
the last min(5, length) elements of the history given to get_response, in
their original order: it equals the drop of all but the final five
elements, is a suffix of the input, and has length min 5 (input length). -/
theorem C4_history_truncation (q : String) (db : Env) (h : List Msg) :
    (∀ p r, Event.llmSql p r ∈ (get_response q db h).2 →
        p.chat_history = takeLast 5 h) ∧
      (∀ p r, Event.llmAnswer p r ∈ (get_response q db h).2 →
        p.chat_history = takeLast 5 h) ∧
      (takeLast 5 h).length = min 5 h.length ∧
      takeLast 5 h <:+ h ∧
      takeLast 5 h = h.drop (h.length - 5) := by
  refine ⟨?_, ?_, takeLast_length 5 h, takeLast_suffix 5 h, rfl⟩
  · intro p r he
    exact (trace_llmSql_inv q db h p r he).1
  · intro p r he
    exact (trace_llmAnswer_inv q db h p r he).1

/-- A seven-message history used to exercise the five-message truncation. -/
def hist7 : List Msg :=
  [Msg.ai "m1", Msg.human "m2", Msg.ai "m3", Msg.human "m4",
   Msg.ai "m5", Msg.human "m6", Msg.ai "m7"]

/-- C4 witness: on a seven-message history the SQL prompt of a concrete run
carries exactly the last five messages. -/
theorem C4_history_truncation_witness :
    (⟨"schemaA", takeLast 5 hist7, "q"⟩ : SqlPrompt).chat_history =
        takeLast 5 hist7 ∧
      (takeLast 5 hist7).length = min 5 hist7.length :=
  ⟨(C4_history_truncation "q" (constEnv "SELECT 1" "answer") hist7).1
      ⟨"schemaA", takeLast 5 hist7, "q"⟩ "SELECT 1" (by decide),
    (C4_history_truncation "q" (constEnv "SELECT 1" "answer") hist7).2.2.1⟩

/-- C5 counterexample: in a concrete UI-driven turn, the history given to
the pipeline already contains the current question — the shell appends the
human message before invoking get_response — so the SQL-synthesis prompt's
history is the prior history followed by the question's message, refuting
the claim that the question is excluded at the truncation step. -/
theorem C5_claim_cex :
    sqlPromptHistories (ui_turn "How many users" (constEnv "SELECT 1" "answer")
        [Msg.ai "welcome"]).2.2 =
      [[Msg.ai "welcome", Msg.human "How many users"]] := rfl

/-- C5 (amended): the UI shell appends the current question to the history
before invoking the pipeline, so the history the pipeline truncates already
ends with the current question's message; every SQL-synthesis prompt of the
turn carries that truncated history, whose last element is the question. -/
theorem C5_history_includes_question (q : String) (db : Env) (h : List Msg)
    (hq : py_strip q ≠ "") :
    ∀ p r, Event.llmSql p r ∈ (ui_turn q db h).2.2 →
      p.chat_history = takeLast 5 (h ++ [Msg.human q]) ∧
      p.chat_history.getLast? = some (Msg.human q) ∧
      Msg.human q ∈ p.chat_history := by
  intro p r he
  have htr : (ui_turn q db h).2.2 = (get_response q db (h ++ [Msg.human q])).2 := by
    unfold ui_turn
    rw [if_neg hq]
    rcases hg : get_response q db (h ++ [Msg.human q]) with ⟨res, t⟩
    simp only [hg]
    rcases res with e | pr
    · rfl
    · rcases pr with ⟨a, b⟩
      rfl
  rw [htr] at he
  have h1 := (trace_llmSql_inv q db (h ++ [Msg.human q]) p r he).1
  refine ⟨h1, ?_, ?_⟩
  · rw [h1]
    exact takeLast_concat_getLast h (Msg.human q)
  · rw [h1]
    exact takeLast_concat_mem h (Msg.human q)

/-- C5 witness: a concrete turn in which the SQL prompt's history ends with
the current question's message. -/
theorem C5_history_includes_question_witness :
    (⟨"schemaA", [Msg.ai "w", Msg.human "q1"], "q1"⟩ : SqlPrompt).chat_history =
        takeLast 5 ([Msg.ai "w"] ++ [Msg.human "q1"]) ∧
      (⟨"schemaA", [Msg.ai "w", Msg.human "q1"], "q1"⟩ :
          SqlPrompt).chat_history.getLast? = some (Msg.human "q1") ∧
      Msg.human "q1" ∈ (⟨"schemaA", [Msg.ai "w", Msg.human "q1"], "q1"⟩ :
        SqlPrompt).chat_history :=
  C5_history_includes_question "q1" (constEnv "SELECT 1" "answer") [Msg.ai "w"]
    (by decide) ⟨"schemaA", [Msg.ai "w", Msg.human "q1"], "q1"⟩ "SELECT 1"
    (by decide)

/-- C6 counterexample: when the model synthesizes the empty string, the gate
passes it, the gateway executes it (one db.run call with the empty query),
and the first component of the returned pair is "" even though the turn was
not short-circuited — emptiness does not characterize short-circuiting. -/
theorem C6_claim_cex :
    (get_response "list users" (constEnv "" "answer") []).1 =
        Except.ok ("", "answer") ∧
      runCalls (get_response "list users" (constEnv "" "answer") []).2 = [""] ∧
      (get_response "list users" (constEnv "" "answer") []).1 ≠
        Except.ok ("", refusal_message) := by
  refine ⟨rfl, rfl, ?_⟩
  intro hc
  rw [show (get_response "list users" (constEnv "" "answer") []).1 =
      Except.ok ("", "answer") from rfl] at hc
  simp [refusal_message] at hc

/-- C6 (amended): get_response always returns a pair; in a greeting turn the
first component is "" with the canned reply, in a refused turn it is "" with
the fixed refusal message, and in every completed non-short-circuited turn
it is the synthesized SQL text verbatim — so emptiness coincides with
short-circuiting exactly when the synthesized SQL is nonempty. -/
theorem C6_sql_component (q : String) (db : Env) (h : List Msg) :
    (∀ reply, general_messages.lookup (py_lower q) = some reply →
       (get_response q db h).1 = Except.ok ("", reply)) ∧
    (∀ s1 sql, general_messages.lookup (py_lower q) = none →
       db.get_table_info 0 = Except.ok s1 →
       db.llmSql ⟨s1, takeLast 5 h, q⟩ = Except.ok sql →
       validate_query sql = false →
       (get_response q db h).1 = Except.ok ("", refusal_message)) ∧
    (∀ s1 sql s2 resp ans, general_messages.lookup (py_lower q) = none →
       db.get_table_info 0 = Except.ok s1 →
       db.llmSql ⟨s1, takeLast 5 h, q⟩ = Except.ok sql →
       validate_query sql = true →
       db.get_table_info 1 = Except.ok s2 →
       db.run sql = Except.ok resp →
       db.llmAnswer ⟨s2, takeLast 5 h, sql, q, resp⟩ = Except.ok ans →
       (get_response q db h).1 = Except.ok (sql, ans)) := by
  refine ⟨?_, ?_, ?_⟩
  · intro reply hg
    rw [get_response_greeting_eq q db h reply hg]
  · intro s1 sql hq h1 h2 hv
    rw [get_response_refusal_eq q db h s1 sql hq h1 h2 hv]
  · intro s1 sql s2 resp ans hq h1 h2 hv h3 h4 h5
    rw [get_response_success_eq q db h s1 sql s2 resp ans hq h1 h2 hv h3 h4 h5]

/-- C6 witness: a completed non-short-circuited concrete turn returns the
synthesized SQL verbatim as the first component. -/
theorem C6_sql_component_witness :
    (get_response "list users" (constEnv "SELECT 1" "answer") []).1 =
      Except.ok ("SELECT 1", "answer") :=
  (C6_sql_component "list users" (constEnv "SELECT 1" "answer") []).2.2
    "schemaA" "SELECT 1" "schemaB" "rows(SELECT 1)" "answer"
    rfl rfl rfl rfl rfl rfl rfl

/-- C7: any error raised by the database gateway (either schema fetch or the
query execution) or by the language model client (SQL synthesis or answer
synthesis) propagates out of get_response as its original, distinguishable
kind — get_response installs no handler — while the unsafe-query condition
alone is handled gracefully with the canned refusal instead of an error. -/
theorem C7_error_propagation (q : String) (db : Env) (h : List Msg) (e : Err)
    (hq : general_messages.lookup (py_lower q) = none) :
    (db.get_table_info 0 = Except.error e →
       (get_response q db h).1 = Except.error e) ∧
    (∀ s1, db.get_table_info 0 = Except.ok s1 →
       db.llmSql ⟨s1, takeLast 5 h, q⟩ = Except.error e →
       (get_response q db h).1 = Except.error e) ∧
    (∀ s1 sql, db.get_table_info 0 = Except.ok s1 →
       db.llmSql ⟨s1, takeLast 5 h, q⟩ = Except.ok sql →
       validate_query sql = true →
       db.get_table_info 1 = Except.error e →
       (get_response q db h).1 = Except.error e) ∧
    (∀ s1 sql s2, db.get_table_info 0 = Except.ok s1 →
       db.llmSql ⟨s1, takeLast 5 h, q⟩ = Except.ok sql →
       validate_query sql = true →
       db.get_table_info 1 = Except.ok s2 →
       db.run sql = Except.error e →
       (get_response q db h).1 = Except.error e) ∧
    (∀ s1 sql s2 resp, db.get_table_info 0 = Except.ok s1 →
       db.llmSql ⟨s1, takeLast 5 h, q⟩ = Except.ok sql →
       validate_query sql = true →
       db.get_table_info 1 = Except.ok s2 →
       db.run sql = Except.ok resp →
       db.llmAnswer ⟨s2, takeLast 5 h, sql, q, resp⟩ = Except.error e →
       (get_response q db h).1 = Except.error e) ∧
    (∀ s1 sql, db.get_table_info 0 = Except.ok s1 →
       db.llmSql ⟨s1, takeLast 5 h, q⟩ = Except.ok sql →
       validate_query sql = false →
       (get_response q db h).1 = Except.ok ("", refusal_message)) := by
  refine ⟨?_, ?_, ?_, ?_, ?_, ?_⟩
  · intro h1
    rw [get_response_err_fetch1 q db h e hq h1]
  · intro s1 h1 h2
    rw [get_response_err_llmSql q db h e s1 hq h1 h2]
  · intro s1 sql h1 h2 hv h3
    rw [get_response_err_fetch2 q db h e s1 sql hq h1 h2 hv h3]
  · intro s1 sql s2 h1 h2 hv h3 h4
    rw [get_response_err_run q db h e s1 sql s2 hq h1 h2 hv h3 h4]
  · intro s1 sql s2 resp h1 h2 hv h3 h4 h5
    rw [get_response_err_llmAnswer q db h e s1 sql s2 resp hq h1 h2 hv h3 h4 h5]
  · intro s1 sql h1 h2 hv
    rw [get_response_refusal_eq q db h s1 sql hq h1 h2 hv]

/-- C7 witness: a gateway failure during execution of a concrete turn
propagates out of get_response as QueryExecutionError. -/
theorem C7_error_propagation_witness :
    (get_response "list users" runFailEnv []).1 =
      Except.error Err.QueryExecutionError :=
  (C7_error_propagation "list users" runFailEnv [] Err.QueryExecutionError
      rfl).2.2.2.1 "schemaA" "SELECT 1" "schemaA" rfl rfl rfl rfl rfl

/-- C8: the schema carried by each prompt is exactly the gateway's value at
the corresponding fetch of the same invocation — the SQL-synthesis prompt
carries the result of the invocation's first fetch and the answer-synthesis
prompt the result of its second fetch, so the prompt schemas always reflect
gateway state at call time, never a cached copy. -/
theorem C8_schema_fresh (q : String) (db : Env) (h : List Msg) :
    (∀ p r, Event.llmSql p r ∈ (get_response q db h).2 →
       db.get_table_info 0 = Except.ok p.schema) ∧
    (∀ p r, Event.llmAnswer p r ∈ (get_response q db h).2 →
       db.get_table_info 1 = Except.ok p.schema) := by
  constructor
  · intro p r he
    exact (trace_llmSql_inv q db h p r he).2.2
  · intro p r he
    exact (trace_llmAnswer_inv q db h p r he).2.2.1

/-- C8 witness: with a gateway whose state differs between the two fetches,
the two prompts of one concrete turn carry the two different fetched
schemas. -/
theorem C8_schema_fresh_witness :
    (constEnv "SELECT 1" "answer").get_table_info 0 = Except.ok "schemaA" ∧
      (constEnv "SELECT 1" "answer").get_table_info 1 = Except.ok "schemaB" :=
  ⟨(C8_schema_fresh "list users" (constEnv "SELECT 1" "answer") []).1
      ⟨"schemaA", [], "list users"⟩ "SELECT 1" (by decide),
    (C8_schema_fresh "list users" (constEnv "SELECT 1" "answer") []).2
      ⟨"schemaB", [], "SELECT 1", "list users", "rows(SELECT 1)"⟩ "answer"
      (by decide)⟩

/-- C9: the pipeline leaves the caller's history unchanged — it only reads a
truncated copy and returns the result pair — so after a UI turn the history
is exactly the input history extended by the shell's own appends: the human
question, then (on pipeline success) the AI reply; the input history is
always a prefix of the turn's resulting history. -/
theorem C9_history_frame (q : String) (db : Env) (h : List Msg) :
    (ui_turn q db h).1 =
      (if py_strip q = "" then h
       else
         match (get_response q db (h ++ [Msg.human q])).1 with
         | Except.ok (_, response) => h ++ [Msg.human q, Msg.ai response]
         | Except.error _ => h ++ [Msg.human q]) ∧
      h <+: (ui_turn q db h).1 := by
  by_cases hsq : py_strip q = ""
  · constructor
    · unfold ui_turn
      rw [if_pos hsq, if_pos hsq]
    · unfold ui_turn
      rw [if_pos hsq]
  · have hu : (ui_turn q db h).1 =
        (match (get_response q db (h ++ [Msg.human q])).1 with
         | Except.ok (_, response) => h ++ [Msg.human q, Msg.ai response]
         | Except.error _ => h ++ [Msg.human q]) := by
      unfold ui_turn
      rw [if_neg hsq]
      rcases hg : get_response q db (h ++ [Msg.human q]) with ⟨res, t⟩
      simp only [hg]
      rcases res with e | pr
      · rfl
      · rcases pr with ⟨a, b⟩
        simp
    constructor
    · rw [hu, if_neg hsq]
    · rw [hu]
      rcases hr : (get_response q db (h ++ [Msg.human q])).1 with e | pr
      · exact ⟨[Msg.human q], rfl⟩
      · rcases pr with ⟨a, b⟩
        exact ⟨[Msg.human q, Msg.ai b], rfl⟩

/-- C10: in a completed non-short-circuited turn the synthesized SQL text is
executed against the gateway exactly once (a single db.run call, on exactly
that text) while the schema is fetched exactly twice, the first fetch
feeding the SQL-synthesis prompt and the second the answer-synthesis
prompt, and the second language model call happens exactly once. -/
theorem C10_call_counts (q : String) (db : Env) (h : List Msg)
    (s1 sql s2 resp ans : String)
    (hq : general_messages.lookup (py_lower q) = none)
    (h1 : db.get_table_info 0 = Except.ok s1)
    (h2 : db.llmSql ⟨s1, takeLast 5 h, q⟩ = Except.ok sql)
    (hv : validate_query sql = true)
    (h3 : db.get_table_info 1 = Except.ok s2)
    (h4 : db.run sql = Except.ok resp)
    (h5 : db.llmAnswer ⟨s2, takeLast 5 h, sql, q, resp⟩ = Except.ok ans) :
    runCalls (get_response q db h).2 = [sql] ∧
      fetchResults (get_response q db h).2 = [s1, s2] ∧
      countLlmAnswer (get_response q db h).2 = 1 := by
  rw [get_response_success_eq q db h s1 sql s2 resp ans hq h1 h2 hv h3 h4 h5]
  exact ⟨rfl, rfl, rfl⟩

/-- C10 witness: a concrete completed turn runs its SQL once and fetches the
schema twice. -/
theorem C10_call_counts_witness :
    runCalls (get_response "list users" (constEnv "SELECT 1" "answer") []).2 =
        ["SELECT 1"] ∧
      fetchResults (get_response "list users"
        (constEnv "SELECT 1" "answer") []).2 = ["schemaA", "schemaB"] ∧
      countLlmAnswer (get_response "list users"
        (constEnv "SELECT 1" "answer") []).2 = 1 :=
  C10_call_counts "list users" (constEnv "SELECT 1" "answer") []
    "schemaA" "SELECT 1" "schemaB" "rows(SELECT 1)" "answer"
    rfl rfl rfl rfl rfl rfl rfl
